import Mathlib

/-
Verification development for the engine12 C API surface.

The C sources under src/c_api are shallowly embedded here:
  * e12_orm_c.c is translated function by function.  The SQLite library it
    links against is external, so each embedded function is parameterised by
    an oracle describing SQLite's reaction (return codes, error messages,
    change counts, prepared-statement contents).  The process-wide error
    slot (last_error_code / last_error_msg) is threaded explicitly as an
    ErrState value; out-parameters are modelled as Option results where
    `none` means "the pointer was not written"; NULL pointer arguments are
    modelled as `none` inputs or `false` validity flags.  Each function also
    returns the list of SQL statements it handed to the database, so that
    "no statement was issued" is a provable proposition.
  * engine12.h only declares the engine; its error-code enumeration is
    embedded directly, and the route-registration behaviour (whose
    implementation is not part of these sources) is modelled from the spec
    where a claim needs it.
-/

namespace Engine12Spec

/-- Error codes of the ORM C API (e12_orm.h, E12ORMErrorCode). -/
inductive E12ORMErrorCode where
  | ok
  | error
  | openFailed
  | queryFailed
  | invalidArgument
  | noResults
  deriving DecidableEq, Repr

/-- Numeric values of E12ORMErrorCode as declared in e12_orm.h. -/
def E12ORMErrorCode.toCode : E12ORMErrorCode → Nat
  | .ok => 0
  | .error => 1
  | .openFailed => 2
  | .queryFailed => 3
  | .invalidArgument => 4
  | .noResults => 5

/-- The process-wide error slot of e12_orm_c.c: the static variables
last_error_code and last_error_msg, threaded explicitly through every
embedded call. -/
structure ErrState where
  code : E12ORMErrorCode
  msg : String
  deriving DecidableEq, Repr

/-- Embedding of static set_error: stores the code and copies at most 511
characters of the message (strncpy with a forced terminator); a NULL
message pointer leaves an empty message.  The previous slot contents are
ignored entirely. -/
def set_error (code : E12ORMErrorCode) (msg : Option String) (_s : ErrState) : ErrState :=
  { code := code
    msg := match msg with
           | some m => m.take 511
           | none => "" }

/-- Embedding of static clear_error: resets the slot to OK with an empty
message, regardless of its previous contents. -/
def clear_error (_s : ErrState) : ErrState :=
  { code := .ok, msg := "" }

/-- The error slot at process start (both statics zero-initialised). -/
def errInit : ErrState := { code := .ok, msg := "" }

/-- SQLite return code SQLITE_OK. -/
def SQLITE_OK : Int := 0

/-- SQLite return code SQLITE_ROW. -/
def SQLITE_ROW : Int := 100

/-- SQLite return code SQLITE_DONE. -/
def SQLITE_DONE : Int := 101

/-- An oracle for sqlite3_exec on a given connection: for a statement text
it yields the return code and the error message sqlite3_exec would place in
its errmsg out-parameter (`none` models a NULL errmsg). -/
def ExecOracle : Type := String → Int × Option String

/-- A SQLite value as stored in a result column.  Reals are modelled as
rationals: the claims proved below never compute with them, they only move
them around, so no floating-point semantics is needed. -/
inductive SqlValue where
  | null
  | int (i : Int)
  | real (q : ℚ)
  | text (s : String)
  | blob (b : List Nat)
  deriving DecidableEq, Repr

/-- A prepared SQLite statement, abstracted to the row stream it will
produce: the rows not yet stepped over, the current row after the last
successful step, and the column count sqlite3_column_count reports. -/
structure SqliteStmt where
  pending : List (List SqlValue)
  current : Option (List SqlValue)
  cols : Nat
  deriving DecidableEq, Repr

/-- Embedding of sqlite3_step on the abstract statement: yields SQLITE_ROW
and advances to the next row while rows remain, and SQLITE_DONE (clearing
the current row) once the stream is exhausted. -/
def sqlite3_step (s : SqliteStmt) : Int × SqliteStmt :=
  match s.pending with
  | [] => (SQLITE_DONE, { s with current := none })
  | r :: rest => (SQLITE_ROW, { s with pending := rest, current := some r })

/-- The value stored in column i of the statement's current row; NULL when
there is no current row.  The C wrapper checks the index bounds before ever
asking SQLite for a column, so the out-of-range behaviour here is never
exercised through the public API. -/
def SqliteStmt.columnValue (s : SqliteStmt) (i : Int) : SqlValue :=
  match s.current with
  | none => SqlValue.null
  | some row => if 0 ≤ i then row.getD i.toNat SqlValue.null else SqlValue.null

/-- Embedding of sqlite3_column_text: NULL values yield a NULL pointer
(`none`); other values are coerced to their text rendering. -/
def sqlite3_column_text (s : SqliteStmt) (i : Int) : Option String :=
  match s.columnValue i with
  | .null => none
  | .int n => some (toString n)
  | .real q => some (toString q.num ++ "/" ++ toString q.den)
  | .text t => some t
  | .blob _ => some ""

/-- Embedding of sqlite3_column_int64: NULL yields 0, reals are truncated,
text and blobs are modelled as 0. -/
def sqlite3_column_int64 (s : SqliteStmt) (i : Int) : Int :=
  match s.columnValue i with
  | .null => 0
  | .int n => n
  | .real q => q.floor
  | .text _ => 0
  | .blob _ => 0

/-- Embedding of sqlite3_column_double: NULL yields 0.0, integers are
widened, text and blobs are modelled as 0.0. -/
def sqlite3_column_double (s : SqliteStmt) (i : Int) : ℚ :=
  match s.columnValue i with
  | .null => 0
  | .int n => (n : ℚ)
  | .real q => q
  | .text _ => 0
  | .blob _ => 0

/-- Embedding of the test sqlite3_column_type(...) == SQLITE_NULL. -/
def sqlite3_column_type_is_null (s : SqliteStmt) (i : Int) : Bool :=
  decide (s.columnValue i = SqlValue.null)

/-- Embedding of e12_db_open.  `openrc` is the oracle for sqlite3_open's
return code on a path and `openmsg` for sqlite3_errmsg afterwards;
`mallocOk` tells whether malloc succeeds; `path = none` models a NULL path
and `out_db_valid = false` a NULL out_db pointer.  Result: (return code,
value written to *out_db or `none` if unwritten, error slot, list of paths
actually handed to sqlite3_open). -/
def e12_db_open (openrc : String → Int) (openmsg : String → String) (mallocOk : Bool)
    (path : Option String) (out_db_valid : Bool) (err0 : ErrState) :
    E12ORMErrorCode × Option Unit × ErrState × List String :=
  let err1 := clear_error err0
  match path, out_db_valid with
  | some p, true =>
    if !mallocOk then
      (.error, none, set_error .error (some "Memory allocation failed") err1, [])
    else if openrc p ≠ SQLITE_OK then
      (.openFailed, none, set_error .openFailed (some (openmsg p)) err1, [p])
    else
      (.ok, some (), err1, [p])
  | _, _ =>
    (.invalidArgument, none, set_error .invalidArgument (some "Invalid arguments") err1, [])

/-- Embedding of e12_db_execute.  `exec` is the sqlite3_exec oracle of the
connection, `changes` the value sqlite3_changes reports after a successful
execution; `db = none` and `sql = none` model NULL arguments, and
`rows_ptr_valid = false` a NULL rows_affected pointer.  Result: (return
code, value written to *rows_affected or `none` if unwritten, error slot,
statements handed to sqlite3_exec). -/
def e12_db_execute (exec : ExecOracle) (changes : Int)
    (db : Option Unit) (sql : Option String) (rows_ptr_valid : Bool) (err0 : ErrState) :
    E12ORMErrorCode × Option Int × ErrState × List String :=
  let err1 := clear_error err0
  match db, sql with
  | some _, some s =>
    let rcem := exec s
    if rcem.1 ≠ SQLITE_OK then
      (.queryFailed, none,
       set_error .queryFailed (some (rcem.2.getD "Query failed")) err1, [s])
    else if rows_ptr_valid then
      (.ok, some changes, err1, [s])
    else
      (.ok, none, err1, [s])
  | _, _ =>
    (.invalidArgument, none, set_error .invalidArgument (some "Invalid arguments") err1, [])

/-- Result-set handle contents (struct E12ResultImpl in e12_orm_c.c): the
prepared statement, the cached column count, and the has_row / row_fetched
cursor flags. -/
structure E12ResultImpl where
  stmt : SqliteStmt
  column_count : Int
  has_row : Bool
  row_fetched : Bool
  deriving DecidableEq, Repr

/-- Row handle contents (struct E12RowImpl): a pointer to the result it was
produced from, `none` modelling a NULL pointer. -/
structure E12RowImpl where
  result : Option E12ResultImpl
  deriving DecidableEq, Repr

/-- Embedding of e12_db_query.  `prepare` is the sqlite3_prepare_v2 oracle
of the connection (an error carries the sqlite3_errmsg text), `mallocOk`
whether malloc succeeds; `db = none`, `sql = none` and
`out_result_valid = false` model NULL arguments.  Result: (return code,
value written to *out_result or `none` if unwritten, error slot, SQL texts
actually handed to sqlite3_prepare_v2). -/
def e12_db_query (prepare : String → Except String SqliteStmt) (mallocOk : Bool)
    (db : Option Unit) (sql : Option String) (out_result_valid : Bool) (err0 : ErrState) :
    E12ORMErrorCode × Option E12ResultImpl × ErrState × List String :=
  let err1 := clear_error err0
  match db, sql, out_result_valid with
  | some _, some s, true =>
    match prepare s with
    | .error em =>
      (.queryFailed, none, set_error .queryFailed (some em) err1, [s])
    | .ok stmt =>
      if !mallocOk then
        (.error, none, set_error .error (some "Memory allocation failed") err1, [s])
      else
        (.ok, some { stmt := stmt, column_count := (stmt.cols : Int),
                     has_row := false, row_fetched := false }, err1, [s])
  | _, _, _ =>
    (.invalidArgument, none, set_error .invalidArgument (some "Invalid arguments") err1, [])

/-- Embedding of e12_result_column_count: 0 on a NULL handle, otherwise the
cached column count. -/
def e12_result_column_count : Option E12ResultImpl → Int
  | none => 0
  | some r => r.column_count

/-- Embedding of e12_result_next_row.  The two C branches (first fetch vs.
subsequent fetch) both step the statement once and differ only in setting
row_fetched, so they are merged; `mallocOk` models the row-handle malloc.
Result: (returned bool, value written to *out_row — `some none` is an
explicit NULL store, `none` means the pointer was never written — and the
post state of the result the handle aliases, `none` when the input handle
was NULL). -/
def e12_result_next_row (mallocOk : Bool)
    (result : Option E12ResultImpl) (out_row_valid : Bool) :
    Bool × Option (Option E12RowImpl) × Option E12ResultImpl :=
  match result, out_row_valid with
  | some r, true =>
    let rcs := sqlite3_step r.stmt
    if rcs.1 = SQLITE_ROW then
      let r1 : E12ResultImpl :=
        { r with stmt := rcs.2, has_row := true, row_fetched := true }
      if mallocOk then
        (true, some (some { result := some r1 }), some r1)
      else
        (false, some none, some { r1 with has_row := false })
    else
      (false, some none,
       some { r with stmt := rcs.2, has_row := false, row_fetched := true })
  | _, _ => (false, none, result)

/-- Embedding of e12_row_get_text: NULL handle, NULL result pointer, no
current row, or an out-of-range column index all yield NULL; otherwise the
column's text. -/
def e12_row_get_text (row : Option E12RowImpl) (col_index : Int) : Option String :=
  match row with
  | none => none
  | some ri =>
    match ri.result with
    | none => none
    | some r =>
      if !r.has_row then none
      else if col_index < 0 || col_index ≥ r.column_count then none
      else sqlite3_column_text r.stmt col_index

/-- Embedding of e12_row_get_int64: the invalid cases all yield 0. -/
def e12_row_get_int64 (row : Option E12RowImpl) (col_index : Int) : Int :=
  match row with
  | none => 0
  | some ri =>
    match ri.result with
    | none => 0
    | some r =>
      if !r.has_row then 0
      else if col_index < 0 || col_index ≥ r.column_count then 0
      else sqlite3_column_int64 r.stmt col_index

/-- Embedding of e12_row_get_double: the invalid cases all yield 0.0. -/
def e12_row_get_double (row : Option E12RowImpl) (col_index : Int) : ℚ :=
  match row with
  | none => 0
  | some ri =>
    match ri.result with
    | none => 0
    | some r =>
      if !r.has_row then 0
      else if col_index < 0 || col_index ≥ r.column_count then 0
      else sqlite3_column_double r.stmt col_index

/-- Embedding of e12_row_is_null: the invalid cases all yield true. -/
def e12_row_is_null (row : Option E12RowImpl) (col_index : Int) : Bool :=
  match row with
  | none => true
  | some ri =>
    match ri.result with
    | none => true
    | some r =>
      if !r.has_row then true
      else if col_index < 0 || col_index ≥ r.column_count then true
      else sqlite3_column_type_is_null r.stmt col_index

/-- Transaction handle contents (struct E12TransactionImpl): the completion
flags; the db pointer is represented by the exec oracle each call takes. -/
structure E12TransactionImpl where
  committed : Bool
  rolled_back : Bool
  deriving DecidableEq, Repr

/-- Embedding of e12_db_begin_transaction.  Result: (return code, value
written to *out_transaction or `none` if unwritten, error slot, statements
handed to sqlite3_exec). -/
def e12_db_begin_transaction (exec : ExecOracle) (mallocOk : Bool)
    (db : Option Unit) (out_transaction_valid : Bool) (err0 : ErrState) :
    E12ORMErrorCode × Option E12TransactionImpl × ErrState × List String :=
  let err1 := clear_error err0
  match db, out_transaction_valid with
  | some _, true =>
    let rcem := exec "BEGIN TRANSACTION"
    if rcem.1 ≠ SQLITE_OK then
      (.queryFailed, none,
       set_error .queryFailed (some (rcem.2.getD "Failed to begin transaction")) err1,
       ["BEGIN TRANSACTION"])
    else if !mallocOk then
      (.error, none, set_error .error (some "Memory allocation failed") err1,
       ["BEGIN TRANSACTION", "ROLLBACK"])
    else
      (.ok, some { committed := false, rolled_back := false }, err1,
       ["BEGIN TRANSACTION"])
  | _, _ =>
    (.invalidArgument, none, set_error .invalidArgument (some "Invalid arguments") err1, [])

/-- Embedding of e12_db_commit.  Result: (return code, post state of the
transaction handle — `none` only when the input handle was NULL — error
slot, statements handed to sqlite3_exec). -/
def e12_db_commit (exec : ExecOracle)
    (transaction : Option E12TransactionImpl) (err0 : ErrState) :
    E12ORMErrorCode × Option E12TransactionImpl × ErrState × List String :=
  let err1 := clear_error err0
  match transaction with
  | none =>
    (.invalidArgument, none, set_error .invalidArgument (some "Invalid transaction") err1, [])
  | some t =>
    if t.committed || t.rolled_back then
      (.error, some t, set_error .error (some "Transaction already completed") err1, [])
    else
      let rcem := exec "COMMIT"
      if rcem.1 ≠ SQLITE_OK then
        (.queryFailed, some t,
         set_error .queryFailed (some (rcem.2.getD "Failed to commit transaction")) err1,
         ["COMMIT"])
      else
        (.ok, some { t with committed := true }, err1, ["COMMIT"])

/-- Embedding of e12_db_rollback, symmetric to e12_db_commit. -/
def e12_db_rollback (exec : ExecOracle)
    (transaction : Option E12TransactionImpl) (err0 : ErrState) :
    E12ORMErrorCode × Option E12TransactionImpl × ErrState × List String :=
  let err1 := clear_error err0
  match transaction with
  | none =>
    (.invalidArgument, none, set_error .invalidArgument (some "Invalid transaction") err1, [])
  | some t =>
    if t.committed || t.rolled_back then
      (.error, some t, set_error .error (some "Transaction already completed") err1, [])
    else
      let rcem := exec "ROLLBACK"
      if rcem.1 ≠ SQLITE_OK then
        (.queryFailed, some t,
         set_error .queryFailed (some (rcem.2.getD "Failed to rollback transaction")) err1,
         ["ROLLBACK"])
      else
        (.ok, some { t with rolled_back := true }, err1, ["ROLLBACK"])

/-- Embedding of e12_transaction_free: returns the statements it hands to
sqlite3_exec — a ROLLBACK exactly when the transaction was neither
committed nor rolled back (the auto-rollback path). -/
def e12_transaction_free (transaction : Option E12TransactionImpl) : List String :=
  match transaction with
  | none => []
  | some t =>
    if !t.committed && !t.rolled_back then ["ROLLBACK"] else []

/-- Connection pool configuration (E12ConnectionPoolConfig in e12_orm.h). -/
structure E12ConnectionPoolConfig where
  max_connections : Nat
  idle_timeout_ms : Nat
  acquire_timeout_ms : Nat
  deriving DecidableEq, Repr

/-- Embedding of e12_pool_create: a stub that ignores its arguments, never
writes the out-parameter and reports E12_ORM_ERROR. -/
def e12_pool_create (_path : Option String) (_config : Option E12ConnectionPoolConfig)
    (_out_pool_valid : Bool) (err0 : ErrState) :
    E12ORMErrorCode × Option Unit × ErrState :=
  (.error, none,
   set_error .error (some "Connection pooling not yet implemented in C API") (clear_error err0))

/-- Embedding of e12_pool_acquire: the same stub shape as e12_pool_create. -/
def e12_pool_acquire (_pool : Option Unit) (_out_db_valid : Bool) (err0 : ErrState) :
    E12ORMErrorCode × Option Unit × ErrState :=
  (.error, none,
   set_error .error (some "Connection pooling not yet implemented in C API") (clear_error err0))

/-- Embedding of e12_pool_release: a no-op — the error slot is untouched and
no statement is issued. -/
def e12_pool_release (_pool : Option Unit) (_db : Option Unit) (err0 : ErrState) :
    ErrState × List String :=
  (err0, [])

/-- Embedding of e12_pool_close: a no-op like e12_pool_release. -/
def e12_pool_close (_pool : Option Unit) (err0 : ErrState) : ErrState × List String :=
  (err0, [])

/-- Embedding of e12_orm_get_last_error: reads the process-wide slot; NULL
when the slot holds OK, otherwise the stored message. -/
def e12_orm_get_last_error (s : ErrState) : Option String :=
  if s.code = .ok then none else some s.msg

/-- Embedding of e12_orm_get_last_error_code: reads the slot's code. -/
def e12_orm_get_last_error_code (s : ErrState) : E12ORMErrorCode :=
  s.code

/-- Error codes of the engine C API (engine12.h, E12ErrorCode). -/
inductive E12ErrorCode where
  | ok
  | invalidArgument
  | tooManyRoutes
  | serverAlreadyBuilt
  | allocationFailed
  | serverStartFailed
  | invalidPath
  | capabilityRequired
  | valveNotFound
  | valveAlreadyRegistered
  | tooManyValves
  | unknown
  deriving DecidableEq, Repr

/-- Numeric values of E12ErrorCode as declared in engine12.h. -/
def E12ErrorCode.toCode : E12ErrorCode → Nat
  | .ok => 0
  | .invalidArgument => 1
  | .tooManyRoutes => 2
  | .serverAlreadyBuilt => 3
  | .allocationFailed => 4
  | .serverStartFailed => 5
  | .invalidPath => 6
  | .capabilityRequired => 7
  | .valveNotFound => 8
  | .valveAlreadyRegistered => 9
  | .tooManyValves => 10
  | .unknown => 99

/-- All constructors of E12ErrorCode, in declaration order. -/
def allE12ErrorCodes : List E12ErrorCode :=
  [.ok, .invalidArgument, .tooManyRoutes, .serverAlreadyBuilt, .allocationFailed,
   .serverStartFailed, .invalidPath, .capabilityRequired, .valveNotFound,
   .valveAlreadyRegistered, .tooManyValves, .unknown]

/-- HTTP methods of the engine C API (engine12.h, E12Method). -/
inductive E12Method where
  | get
  | post
  | put
  | delete
  | patch
  deriving DecidableEq, Repr

/-- Modelled from the spec: the engine lifecycle state machine of spec
section 3 ("lifecycle state in Created, Built, Running, Stopped"); the
engine implementation behind engine12.h is not part of these sources. -/
inductive EngineLifecycle where
  | created
  | built
  | running
  | stopped
  deriving DecidableEq, Repr

/-- Modelled from the spec: a route-table entry per spec section 3
("Route: method, path pattern, handler, opaque user data, owning valve or
core"); handler and user data are opaque and represented by identifiers. -/
structure RouteEntry where
  method : E12Method
  path : String
  handler : Nat
  user_data : Nat
  deriving DecidableEq, Repr

/-- Modelled from the spec: the parts of the engine state C6 needs — the
lifecycle phase and the route table with its capacity limit (spec section 3:
ordered containers with capacity limits). -/
structure Engine12State where
  lifecycle : EngineLifecycle
  routes : List RouteEntry
  maxRoutes : Nat
  deriving DecidableEq, Repr

/-- Modelled from the spec: route registration (e12_get / e12_post / ...),
whose implementation is not in these sources.  Per spec sections 5 and 7:
NULL arguments are a validation error; registration once the engine is
Running fails with SERVER_ALREADY_BUILT and leaves existing state
untouched; exceeding the route capacity fails with TOO_MANY_ROUTES;
otherwise the route is appended.  Result: (return code, post engine
state). -/
def e12_route_register (app : Option Engine12State) (method : E12Method)
    (path : Option String) (handler : Nat) (user_data : Nat) :
    E12ErrorCode × Option Engine12State :=
  match app, path with
  | some a, some p =>
    if a.lifecycle = .running then
      (.serverAlreadyBuilt, some a)
    else if a.routes.length ≥ a.maxRoutes then
      (.tooManyRoutes, some a)
    else
      (.ok, some { a with routes := a.routes ++ [⟨method, p, handler, user_data⟩] })
  | _, _ => (.invalidArgument, app)

/-- Modelled from the spec: e12_get registers a GET route. -/
def e12_get (app : Option Engine12State) (path : Option String)
    (handler : Nat) (user_data : Nat) : E12ErrorCode × Option Engine12State :=
  e12_route_register app E12Method.get path handler user_data

/-- Modelled from the spec: e12_post registers a POST route. -/
def e12_post (app : Option Engine12State) (path : Option String)
    (handler : Nat) (user_data : Nat) : E12ErrorCode × Option Engine12State :=
  e12_route_register app E12Method.post path handler user_data

/-- Modelled from the spec: e12_start transitions the engine to Running
(spec section 2: lifecycle build, then start). -/
def e12_start (app : Option Engine12State) : E12ErrorCode × Option Engine12State :=
  match app with
  | none => (.invalidArgument, none)
  | some a => (.ok, some { a with lifecycle := .running })

/-- Draining loop for a result set: performs n calls to e12_result_next_row
(with succeeding allocations and a valid out pointer) and collects, for each
call that returns true, the current row of the result the returned row
handle aliases.  Stops early if a call returns false. -/
def drainRows : Nat → E12ResultImpl → List (List SqlValue)
  | 0, _ => []
  | n + 1, r =>
    match e12_result_next_row true (some r) true with
    | (true, some (some h), some r2) =>
      (match h.result with
       | some rr => rr.stmt.current.getD []
       | none => []) :: drainRows n r2
    | _ => []

/-- The state of a result after n calls to e12_result_next_row. -/
def drainState : Nat → E12ResultImpl → E12ResultImpl
  | 0, r => r
  | n + 1, r =>
    match e12_result_next_row true (some r) true with
    | (_, _, some r2) => drainState n r2
    | _ => r

/-- One completion call on a live transaction handle: an e12_db_commit or an
e12_db_rollback, with the sqlite oracle and incoming error slot of that
call. -/
inductive TxOp where
  | commit (exec : ExecOracle) (err : ErrState)
  | rollback (exec : ExecOracle) (err : ErrState)

/-- The transaction-handle state after one completion call (the handle is
never NULL here, so the post state is always present). -/
def txApply (t : E12TransactionImpl) (op : TxOp) : E12TransactionImpl :=
  match op with
  | .commit exec err => ((e12_db_commit exec (some t) err).2.1).getD t
  | .rollback exec err => ((e12_db_rollback exec (some t) err).2.1).getD t

/-- The transaction-handle state after a sequence of completion calls. -/
def txRun (t0 : E12TransactionImpl) (ops : List TxOp) : E12TransactionImpl :=
  ops.foldl txApply t0

/-- A successful e12_db_commit marks the post handle state committed. -/
theorem commit_ok_post_flags (ex : ExecOracle) (t t1 : E12TransactionImpl) (e : ErrState)
    (hok : (e12_db_commit ex (some t) e).1 = E12ORMErrorCode.ok)
    (hpost : (e12_db_commit ex (some t) e).2.1 = some t1) :
    t1.committed = true ∨ t1.rolled_back = true := by
  unfold e12_db_commit at hok hpost
  cases hc : t.committed <;> cases hr : t.rolled_back <;>
    simp [hc, hr] at hok hpost
  by_cases h2 : (ex "COMMIT").1 = SQLITE_OK
  · simp [h2] at hpost
    exact Or.inl (by rw [← hpost])
  · simp [h2] at hok

/-- A successful e12_db_rollback marks the post handle state rolled back. -/
theorem rollback_ok_post_flags (ex : ExecOracle) (t t1 : E12TransactionImpl) (e : ErrState)
    (hok : (e12_db_rollback ex (some t) e).1 = E12ORMErrorCode.ok)
    (hpost : (e12_db_rollback ex (some t) e).2.1 = some t1) :
    t1.committed = true ∨ t1.rolled_back = true := by
  unfold e12_db_rollback at hok hpost
  cases hc : t.committed <;> cases hr : t.rolled_back <;>
    simp [hc, hr] at hok hpost
  by_cases h2 : (ex "ROLLBACK").1 = SQLITE_OK
  · simp [h2] at hpost
    exact Or.inr (by rw [← hpost])
  · simp [h2] at hok

/-- On a handle whose committed or rolled_back flag is set, e12_db_commit
takes the early-rejection branch: E12_ORM_ERROR, handle unchanged, no
statement issued. -/
theorem commit_on_completed (ex : ExecOracle) (t : E12TransactionImpl) (e : ErrState)
    (h : t.committed = true ∨ t.rolled_back = true) :
    e12_db_commit ex (some t) e =
      (E12ORMErrorCode.error, some t,
       set_error .error (some "Transaction already completed") (clear_error e), []) := by
  unfold e12_db_commit
  rcases h with h | h <;> simp [h]

/-- On a handle whose committed or rolled_back flag is set, e12_db_rollback
takes the early-rejection branch: E12_ORM_ERROR, handle unchanged, no
statement issued. -/
theorem rollback_on_completed (ex : ExecOracle) (t : E12TransactionImpl) (e : ErrState)
    (h : t.committed = true ∨ t.rolled_back = true) :
    e12_db_rollback ex (some t) e =
      (E12ORMErrorCode.error, some t,
       set_error .error (some "Transaction already completed") (clear_error e), []) := by
  unfold e12_db_rollback
  rcases h with h | h <;> simp [h]

/-- C1: once e12_db_commit or e12_db_rollback has succeeded on a transaction
handle, any further e12_db_commit or e12_db_rollback on that handle is
rejected synchronously with E12_ORM_ERROR (a non-OK code), issues no COMMIT
or ROLLBACK statement to the database, and leaves the completion flags
unchanged (the post handle state is the same handle state t1). -/
theorem C1_completed_transaction_rejected
    (ex ex2 : ExecOracle) (t t1 : E12TransactionImpl) (e e2 : ErrState)
    (hsucc :
      ((e12_db_commit ex (some t) e).1 = E12ORMErrorCode.ok ∧
       (e12_db_commit ex (some t) e).2.1 = some t1) ∨
      ((e12_db_rollback ex (some t) e).1 = E12ORMErrorCode.ok ∧
       (e12_db_rollback ex (some t) e).2.1 = some t1)) :
    ((e12_db_commit ex2 (some t1) e2).1 = E12ORMErrorCode.error ∧
     (e12_db_commit ex2 (some t1) e2).1 ≠ E12ORMErrorCode.ok ∧
     (e12_db_commit ex2 (some t1) e2).2.1 = some t1 ∧
     (e12_db_commit ex2 (some t1) e2).2.2.2 = []) ∧
    ((e12_db_rollback ex2 (some t1) e2).1 = E12ORMErrorCode.error ∧
     (e12_db_rollback ex2 (some t1) e2).1 ≠ E12ORMErrorCode.ok ∧
     (e12_db_rollback ex2 (some t1) e2).2.1 = some t1 ∧
     (e12_db_rollback ex2 (some t1) e2).2.2.2 = []) := by
  have hflag : t1.committed = true ∨ t1.rolled_back = true := by
    rcases hsucc with ⟨hok, hpost⟩ | ⟨hok, hpost⟩
    · exact commit_ok_post_flags ex t t1 e hok hpost
    · exact rollback_ok_post_flags ex t t1 e hok hpost
  rw [commit_on_completed ex2 t1 e2 hflag, rollback_on_completed ex2 t1 e2 hflag]
  simp

/-- Witness for C1 at a concrete input: an always-succeeding exec oracle, a
fresh handle ⟨false, false⟩ whose commit succeeds producing ⟨true, false⟩,
and the initial error slot. -/
theorem C1_completed_transaction_rejected_witness :
    ((e12_db_commit (fun _ => (0, none)) (some ⟨true, false⟩) errInit).1 = E12ORMErrorCode.error ∧
     (e12_db_commit (fun _ => (0, none)) (some ⟨true, false⟩) errInit).1 ≠ E12ORMErrorCode.ok ∧
     (e12_db_commit (fun _ => (0, none)) (some ⟨true, false⟩) errInit).2.1 = some ⟨true, false⟩ ∧
     (e12_db_commit (fun _ => (0, none)) (some ⟨true, false⟩) errInit).2.2.2 = []) ∧
    ((e12_db_rollback (fun _ => (0, none)) (some ⟨true, false⟩) errInit).1 = E12ORMErrorCode.error ∧
     (e12_db_rollback (fun _ => (0, none)) (some ⟨true, false⟩) errInit).1 ≠ E12ORMErrorCode.ok ∧
     (e12_db_rollback (fun _ => (0, none)) (some ⟨true, false⟩) errInit).2.1 = some ⟨true, false⟩ ∧
     (e12_db_rollback (fun _ => (0, none)) (some ⟨true, false⟩) errInit).2.2.2 = []) :=
  C1_completed_transaction_rejected (fun _ => (0, none)) (fun _ => (0, none))
    ⟨false, false⟩ ⟨true, false⟩ errInit errInit (Or.inl ⟨by decide, by decide⟩)

/-- One completion call preserves the at-most-one-flag invariant. -/
theorem txApply_preserves (t : E12TransactionImpl) (op : TxOp)
    (h : (t.committed && t.rolled_back) = false) :
    ((txApply t op).committed && (txApply t op).rolled_back) = false := by
  cases op with
  | commit exec err =>
    unfold txApply e12_db_commit
    cases hc : t.committed <;> cases hr : t.rolled_back <;>
      simp [hc, hr] at h ⊢
    by_cases h2 : (exec "COMMIT").1 = SQLITE_OK <;> simp [h2, hr]
  | rollback exec err =>
    unfold txApply e12_db_rollback
    cases hc : t.committed <;> cases hr : t.rolled_back <;>
      simp [hc, hr] at h ⊢
    by_cases h2 : (exec "ROLLBACK").1 = SQLITE_OK <;> simp [h2, hc]

/-- Any sequence of completion calls preserves the invariant. -/
theorem txRun_preserves (ops : List TxOp) (t : E12TransactionImpl)
    (h : (t.committed && t.rolled_back) = false) :
    ((txRun t ops).committed && (txRun t ops).rolled_back) = false := by
  induction ops generalizing t with
  | nil => exact h
  | cons op rest ih =>
    rw [txRun, List.foldl_cons]
    exact ih (txApply t op) (txApply_preserves t op h)

/-- A fresh handle produced by e12_db_begin_transaction has both flags
clear. -/
theorem begin_transaction_fresh_flags (ex : ExecOracle) (mallocOk : Bool)
    (db : Option Unit) (outv : Bool) (e0 : ErrState) (t0 : E12TransactionImpl)
    (hbegin : (e12_db_begin_transaction ex mallocOk db outv e0).2.1 = some t0) :
    t0.committed = false ∧ t0.rolled_back = false := by
  unfold e12_db_begin_transaction at hbegin
  cases db <;> cases outv <;> simp at hbegin
  by_cases h1 : (ex "BEGIN TRANSACTION").1 = SQLITE_OK
  · cases mallocOk <;> simp [h1] at hbegin
    exact ⟨by rw [← hbegin], by rw [← hbegin]⟩
  · simp [h1] at hbegin

/-- C8: for every transaction handle obtained from e12_db_begin_transaction,
after any sequence of e12_db_commit / e12_db_rollback calls the committed
and rolled_back flags are never both true (at most one of commit and
rollback ever takes effect), and e12_transaction_free on a handle that is
neither committed nor rolled back issues a ROLLBACK statement to the
database before releasing it. -/
theorem C8_transaction_flags_invariant
    (ex : ExecOracle) (mallocOk : Bool) (db : Option Unit) (outv : Bool) (e0 : ErrState)
    (t0 : E12TransactionImpl) (ops : List TxOp)
    (hbegin : (e12_db_begin_transaction ex mallocOk db outv e0).2.1 = some t0) :
    ((txRun t0 ops).committed && (txRun t0 ops).rolled_back) = false ∧
    ((txRun t0 ops).committed = false → (txRun t0 ops).rolled_back = false →
      e12_transaction_free (some (txRun t0 ops)) = ["ROLLBACK"]) := by
  obtain ⟨hc, hr⟩ := begin_transaction_fresh_flags ex mallocOk db outv e0 t0 hbegin
  refine ⟨txRun_preserves ops t0 (by simp [hc, hr]), ?_⟩
  intro h1 h2
  unfold e12_transaction_free
  simp [h1, h2]

/-- Witness for C8 at a concrete input: an always-succeeding begin on a
non-NULL database with a valid out pointer, and the empty call sequence. -/
theorem C8_transaction_flags_invariant_witness :
    ((txRun ⟨false, false⟩ []).committed && (txRun ⟨false, false⟩ []).rolled_back) = false ∧
    ((txRun ⟨false, false⟩ []).committed = false → (txRun ⟨false, false⟩ []).rolled_back = false →
      e12_transaction_free (some (txRun ⟨false, false⟩ [])) = ["ROLLBACK"]) :=
  C8_transaction_flags_invariant (fun _ => (0, none)) true (some ()) true errInit
    ⟨false, false⟩ [] (by decide)

/-- Stepping with rows remaining: e12_result_next_row returns true and a
row handle aliasing the advanced result, whose current row is the next
pending row. -/
theorem next_row_step (r : E12ResultImpl) (x : List SqlValue) (xs : List (List SqlValue))
    (h : r.stmt.pending = x :: xs) :
    e12_result_next_row true (some r) true =
      (true,
       some (some ⟨some { r with
              stmt := { r.stmt with pending := xs, current := some x },
              has_row := true, row_fetched := true }⟩),
       some { r with
              stmt := { r.stmt with pending := xs, current := some x },
              has_row := true, row_fetched := true }) := by
  simp only [e12_result_next_row, sqlite3_step, h]
  norm_num [SQLITE_ROW]

/-- Stepping an exhausted result: e12_result_next_row returns false and
stores NULL into the out pointer. -/
theorem next_row_exhausted (r : E12ResultImpl) (h : r.stmt.pending = []) :
    (e12_result_next_row true (some r) true).1 = false ∧
    (e12_result_next_row true (some r) true).2.1 = some none := by
  simp only [e12_result_next_row, sqlite3_step, h]
  norm_num [SQLITE_ROW, SQLITE_DONE]

/-- Draining a result whose statement still has l pending rows yields
exactly l, in order, and leaves the statement exhausted. -/
theorem drain_yields_pending (l : List (List SqlValue)) :
    ∀ r : E12ResultImpl, r.stmt.pending = l →
      drainRows l.length r = l ∧ (drainState l.length r).stmt.pending = [] := by
  induction l with
  | nil =>
    intro r h
    exact ⟨rfl, h⟩
  | cons x xs ih =>
    intro r h
    have hnext := next_row_step r x xs h
    obtain ⟨ih1, ih2⟩ := ih { r with
        stmt := { r.stmt with pending := xs, current := some x },
        has_row := true, row_fetched := true } rfl
    constructor
    · rw [List.length_cons]
      rw [drainRows, hnext]
      simpa using ih1
    · rw [List.length_cons]
      rw [drainState, hnext]
      exact ih2

/-- A successful e12_db_query wraps the prepared statement with a fresh
cursor and the statement's column count. -/
theorem query_ok_result (prepare : String → Except String SqliteStmt)
    (s : String) (stmt : SqliteStmt) (e0 e1 : ErrState)
    (r : E12ResultImpl) (tr : List String)
    (hp : prepare s = Except.ok stmt)
    (hq : e12_db_query prepare true (some ()) (some s) true e0 =
          (E12ORMErrorCode.ok, some r, e1, tr)) :
    r = { stmt := stmt, column_count := (stmt.cols : Int),
          has_row := false, row_fetched := false } := by
  simp only [e12_db_query, hp] at hq
  simp at hq
  exact hq.1.symm

/-- C2: when e12_db_query succeeds on a database and SQL text, the result
set yields exactly the prepared statement's rows in order — while rows
remain, e12_result_next_row returns true with a handle whose current row is
the next row, and once exhausted it returns false and stores NULL into
*out_row — and e12_result_column_count equals the prepared statement's
column count.  (Allocation is assumed to succeed throughout.) -/
theorem C2_query_result_rows (prepare : String → Except String SqliteStmt)
    (s : String) (stmt : SqliteStmt) (e0 e1 : ErrState)
    (r : E12ResultImpl) (tr : List String)
    (hp : prepare s = Except.ok stmt)
    (hq : e12_db_query prepare true (some ()) (some s) true e0 =
          (E12ORMErrorCode.ok, some r, e1, tr)) :
    e12_result_column_count (some r) = (stmt.cols : Int) ∧
    drainRows stmt.pending.length r = stmt.pending ∧
    (e12_result_next_row true (some (drainState stmt.pending.length r)) true).1 = false ∧
    (e12_result_next_row true (some (drainState stmt.pending.length r)) true).2.1 = some none := by
  have hr := query_ok_result prepare s stmt e0 e1 r tr hp hq
  have hpend : r.stmt.pending = stmt.pending := by rw [hr]
  obtain ⟨hd, he⟩ := drain_yields_pending stmt.pending r hpend
  obtain ⟨hf1, hf2⟩ := next_row_exhausted (drainState stmt.pending.length r) he
  refine ⟨?_, hd, hf1, hf2⟩
  rw [hr]
  rfl

/-- Witness for C2 at a concrete input: a prepare oracle producing a
two-row, one-column statement. -/
theorem C2_query_result_rows_witness :
    e12_result_column_count (some ⟨⟨[[SqlValue.int 1], [SqlValue.int 2]], none, 1⟩,
        (1 : Int), false, false⟩) = ((1 : Nat) : Int) ∧
    drainRows 2 ⟨⟨[[SqlValue.int 1], [SqlValue.int 2]], none, 1⟩, (1 : Int), false, false⟩ =
      [[SqlValue.int 1], [SqlValue.int 2]] ∧
    (e12_result_next_row true
      (some (drainState 2 ⟨⟨[[SqlValue.int 1], [SqlValue.int 2]], none, 1⟩,
        (1 : Int), false, false⟩)) true).1 = false ∧
    (e12_result_next_row true
      (some (drainState 2 ⟨⟨[[SqlValue.int 1], [SqlValue.int 2]], none, 1⟩,
        (1 : Int), false, false⟩)) true).2.1 = some none :=
  C2_query_result_rows
    (fun _ => Except.ok ⟨[[SqlValue.int 1], [SqlValue.int 2]], none, 1⟩)
    "SELECT x FROM t" ⟨[[SqlValue.int 1], [SqlValue.int 2]], none, 1⟩
    errInit errInit
    ⟨⟨[[SqlValue.int 1], [SqlValue.int 2]], none, 1⟩, (1 : Int), false, false⟩
    ["SELECT x FROM t"] rfl (by decide)

/-- C3: on an open (non-NULL) database and a non-NULL SQL string,
e12_db_execute either returns E12_ORM_OK and — when the rows_affected
pointer is non-NULL — stores the connection's change count into it, or
returns a non-OK code and leaves the rows_affected pointer unwritten. -/
theorem C3_execute_rows_affected (exec : ExecOracle) (changes : Int) (s : String)
    (rows_ptr_valid : Bool) (err0 : ErrState) :
    ((e12_db_execute exec changes (some ()) (some s) rows_ptr_valid err0).1 = E12ORMErrorCode.ok ∧
     (rows_ptr_valid = true →
       (e12_db_execute exec changes (some ()) (some s) rows_ptr_valid err0).2.1 = some changes)) ∨
    ((e12_db_execute exec changes (some ()) (some s) rows_ptr_valid err0).1 ≠ E12ORMErrorCode.ok ∧
     (e12_db_execute exec changes (some ()) (some s) rows_ptr_valid err0).2.1 = none) := by
  by_cases h : (exec s).1 = SQLITE_OK
  · left
    cases rows_ptr_valid <;> simp [e12_db_execute, h]
  · right
    simp [e12_db_execute, h]

/-- Witness for C3 at a concrete input: a succeeding exec oracle, five rows
changed, a valid rows_affected pointer. -/
theorem C3_execute_rows_affected_witness :
    ((e12_db_execute (fun _ => (0, none)) 5 (some ()) (some "DELETE FROM t") true errInit).1 =
       E12ORMErrorCode.ok ∧
     (true = true →
       (e12_db_execute (fun _ => (0, none)) 5 (some ()) (some "DELETE FROM t") true errInit).2.1 =
         some 5)) ∨
    ((e12_db_execute (fun _ => (0, none)) 5 (some ()) (some "DELETE FROM t") true errInit).1 ≠
       E12ORMErrorCode.ok ∧
     (e12_db_execute (fun _ => (0, none)) 5 (some ()) (some "DELETE FROM t") true errInit).2.1 =
       none) :=
  C3_execute_rows_affected (fun _ => (0, none)) 5 "DELETE FROM t" true errInit

/-- C4: e12_db_open, e12_db_query and e12_db_begin_transaction each reject a
NULL required pointer argument synchronously with
E12_ORM_ERROR_INVALID_ARGUMENT, hand no path or statement to SQLite,
allocate no handle and leave the out-parameter unwritten. -/
theorem C4_null_argument_rejection :
    (∀ (openrc : String → Int) (openmsg : String → String) (mallocOk : Bool)
       (path : Option String) (outv : Bool) (e0 : ErrState),
       path = none ∨ outv = false →
       (e12_db_open openrc openmsg mallocOk path outv e0).1 = E12ORMErrorCode.invalidArgument ∧
       (e12_db_open openrc openmsg mallocOk path outv e0).2.1 = none ∧
       (e12_db_open openrc openmsg mallocOk path outv e0).2.2.2 = []) ∧
    (∀ (prepare : String → Except String SqliteStmt) (mallocOk : Bool)
       (db : Option Unit) (sql : Option String) (outv : Bool) (e0 : ErrState),
       db = none ∨ sql = none ∨ outv = false →
       (e12_db_query prepare mallocOk db sql outv e0).1 = E12ORMErrorCode.invalidArgument ∧
       (e12_db_query prepare mallocOk db sql outv e0).2.1 = none ∧
       (e12_db_query prepare mallocOk db sql outv e0).2.2.2 = []) ∧
    (∀ (exec : ExecOracle) (mallocOk : Bool) (db : Option Unit) (outv : Bool) (e0 : ErrState),
       db = none ∨ outv = false →
       (e12_db_begin_transaction exec mallocOk db outv e0).1 = E12ORMErrorCode.invalidArgument ∧
       (e12_db_begin_transaction exec mallocOk db outv e0).2.1 = none ∧
       (e12_db_begin_transaction exec mallocOk db outv e0).2.2.2 = []) := by
  refine ⟨?_, ?_, ?_⟩
  · intro openrc openmsg mallocOk path outv e0 h
    rcases h with rfl | rfl
    · cases outv <;> simp [e12_db_open]
    · cases path <;> simp [e12_db_open]
  · intro prepare mallocOk db sql outv e0 h
    rcases h with rfl | rfl | rfl
    · cases sql <;> cases outv <;> simp [e12_db_query]
    · cases db <;> cases outv <;> simp [e12_db_query]
    · cases db <;> cases sql <;> simp [e12_db_query]
  · intro exec mallocOk db outv e0 h
    rcases h with rfl | rfl
    · cases outv <;> simp [e12_db_begin_transaction]
    · cases db <;> simp [e12_db_begin_transaction]

/-- Witness for C4 at concrete inputs: a NULL path for open, a NULL sql for
query, a NULL database for begin_transaction. -/
theorem C4_null_argument_rejection_witness :
    ((e12_db_open (fun _ => 0) (fun _ => "") true none true errInit).1 =
       E12ORMErrorCode.invalidArgument ∧
     (e12_db_open (fun _ => 0) (fun _ => "") true none true errInit).2.1 = none ∧
     (e12_db_open (fun _ => 0) (fun _ => "") true none true errInit).2.2.2 = []) ∧
    ((e12_db_query (fun _ => Except.error "") true (some ()) none true errInit).1 =
       E12ORMErrorCode.invalidArgument ∧
     (e12_db_query (fun _ => Except.error "") true (some ()) none true errInit).2.1 = none ∧
     (e12_db_query (fun _ => Except.error "") true (some ()) none true errInit).2.2.2 = []) ∧
    ((e12_db_begin_transaction (fun _ => (0, none)) true none true errInit).1 =
       E12ORMErrorCode.invalidArgument ∧
     (e12_db_begin_transaction (fun _ => (0, none)) true none true errInit).2.1 = none ∧
     (e12_db_begin_transaction (fun _ => (0, none)) true none true errInit).2.2.2 = []) :=
  ⟨C4_null_argument_rejection.1 (fun _ => 0) (fun _ => "") true none true errInit (Or.inl rfl),
   C4_null_argument_rejection.2.1 (fun _ => Except.error "") true (some ()) none true errInit
     (Or.inr (Or.inl rfl)),
   C4_null_argument_rejection.2.2 (fun _ => (0, none)) true none true errInit (Or.inl rfl)⟩

/-- C5: E12ErrorCode is a closed enumeration of exactly a success value and
the eleven failure constructors the header declares (the spec's ten failure
kinds, with capacity exceeded split into too-many-routes and
too-many-valves), carrying the header's distinct numeric values; every
mutating engine call is declared in engine12.h to return a value of this
type (in this development, e12_route_register / e12_get / e12_post /
e12_start return it by construction). -/
theorem C5_error_code_closed_enumeration :
    allE12ErrorCodes.map E12ErrorCode.toCode =
      [0, 1, 2, 3, 4, 5, 6, 7, 8, 9, 10, 99] ∧
    allE12ErrorCodes.Nodup ∧
    (∀ e : E12ErrorCode, e ∈ allE12ErrorCodes) := by
  refine ⟨by decide, by decide, ?_⟩
  intro e
  cases e <;> simp [allE12ErrorCodes]

/-- C6: once the engine has started (e12_start transitioned it to Running),
a route-registration call such as e12_get or e12_post fails with
SERVER_ALREADY_BUILT and leaves the engine — in particular the route table
and its count — unchanged.  (Modelled from the spec: the engine
implementation behind engine12.h is not part of these sources.) -/
theorem C6_register_after_start_rejected (a a2 : Engine12State) (p : String)
    (handler user_data : Nat)
    (hstart : e12_start (some a) = (E12ErrorCode.ok, some a2)) :
    (e12_get (some a2) (some p) handler user_data).1 = E12ErrorCode.serverAlreadyBuilt ∧
    (e12_get (some a2) (some p) handler user_data).2 = some a2 ∧
    (e12_post (some a2) (some p) handler user_data).1 = E12ErrorCode.serverAlreadyBuilt ∧
    (e12_post (some a2) (some p) handler user_data).2 = some a2 := by
  have ha2 : a2 = { a with lifecycle := .running } := by
    simp [e12_start] at hstart
    exact hstart.symm
  subst ha2
  simp [e12_get, e12_post, e12_route_register]

/-- Witness for C6 at a concrete input: a built engine with one registered
route, started and then asked to register another route. -/
theorem C6_register_after_start_rejected_witness :
    (e12_get (some ⟨.running, [⟨E12Method.get, "/a", 0, 0⟩], 8⟩) (some "/b") 1 0).1 =
      E12ErrorCode.serverAlreadyBuilt ∧
    (e12_get (some ⟨.running, [⟨E12Method.get, "/a", 0, 0⟩], 8⟩) (some "/b") 1 0).2 =
      some ⟨.running, [⟨E12Method.get, "/a", 0, 0⟩], 8⟩ ∧
    (e12_post (some ⟨.running, [⟨E12Method.get, "/a", 0, 0⟩], 8⟩) (some "/b") 1 0).1 =
      E12ErrorCode.serverAlreadyBuilt ∧
    (e12_post (some ⟨.running, [⟨E12Method.get, "/a", 0, 0⟩], 8⟩) (some "/b") 1 0).2 =
      some ⟨.running, [⟨E12Method.get, "/a", 0, 0⟩], 8⟩ :=
  C6_register_after_start_rejected ⟨.built, [⟨E12Method.get, "/a", 0, 0⟩], 8⟩
    ⟨.running, [⟨E12Method.get, "/a", 0, 0⟩], 8⟩ "/b" 1 0 (by decide)

/-- An exec oracle that fails every statement with a fixed message. -/
def execFailOracle : ExecOracle := fun _ => (1, some "near BAD: syntax error")

/-- An exec oracle that accepts every statement. -/
def execOkOracle : ExecOracle := fun _ => (0, none)

/-- C7 counterexample: the ORM keeps a process-wide mutable error slot.  A
failing e12_db_execute on one database leaves an observable last error;
a subsequent successful e12_db_execute on another database clears it, so
what the error-reporting functions observe about the first database's
operation is changed by an operation on the second. -/
theorem C7_counterexample_global_slot :
    e12_orm_get_last_error_code
      ((e12_db_execute execFailOracle 0 (some ()) (some "BAD SQL") true errInit).2.2.1) =
      E12ORMErrorCode.queryFailed ∧
    e12_orm_get_last_error
      ((e12_db_execute execFailOracle 0 (some ()) (some "BAD SQL") true errInit).2.2.1) ≠
      none ∧
    e12_orm_get_last_error
      ((e12_db_execute execOkOracle 3 (some ()) (some "DELETE FROM t") true
        ((e12_db_execute execFailOracle 0 (some ()) (some "BAD SQL") true errInit).2.2.1)).2.2.1) =
      none ∧
    e12_orm_get_last_error_code
      ((e12_db_execute execOkOracle 3 (some ()) (some "DELETE FROM t") true
        ((e12_db_execute execFailOracle 0 (some ()) (some "BAD SQL") true errInit).2.2.1)).2.2.1) =
      E12ORMErrorCode.ok := by
  refine ⟨?_, ?_, ?_, ?_⟩ <;>
    simp [e12_db_execute, execFailOracle, execOkOracle, clear_error, set_error,
          e12_orm_get_last_error, e12_orm_get_last_error_code, SQLITE_OK]

/-- C7 amended: error information is conveyed through each call's return
value and additionally through the process-wide last-error slot.  Every ORM
call begins with clear_error, so the slot after a call is independent of
whatever any earlier call — on any database — left there, and after a
successful e12_db_execute the error-reporting functions observe no error at
all, erasing whatever a failing operation on a different database had
stored. -/
theorem C7_amended_per_call_slot_reset :
    (∀ (exec : ExecOracle) (changes : Int) (db : Option Unit) (sql : Option String)
       (rp : Bool) (e0 e1 : ErrState),
       (e12_db_execute exec changes db sql rp e0).2.2.1 =
       (e12_db_execute exec changes db sql rp e1).2.2.1) ∧
    (∀ (openrc : String → Int) (openmsg : String → String) (m : Bool)
       (p : Option String) (o : Bool) (e0 e1 : ErrState),
       (e12_db_open openrc openmsg m p o e0).2.2.1 =
       (e12_db_open openrc openmsg m p o e1).2.2.1) ∧
    (∀ (prepare : String → Except String SqliteStmt) (m : Bool) (db : Option Unit)
       (sql : Option String) (o : Bool) (e0 e1 : ErrState),
       (e12_db_query prepare m db sql o e0).2.2.1 =
       (e12_db_query prepare m db sql o e1).2.2.1) ∧
    (∀ (exec : ExecOracle) (m : Bool) (db : Option Unit) (o : Bool) (e0 e1 : ErrState),
       (e12_db_begin_transaction exec m db o e0).2.2.1 =
       (e12_db_begin_transaction exec m db o e1).2.2.1) ∧
    (∀ (exec : ExecOracle) (t : Option E12TransactionImpl) (e0 e1 : ErrState),
       (e12_db_commit exec t e0).2.2.1 = (e12_db_commit exec t e1).2.2.1) ∧
    (∀ (exec : ExecOracle) (t : Option E12TransactionImpl) (e0 e1 : ErrState),
       (e12_db_rollback exec t e0).2.2.1 = (e12_db_rollback exec t e1).2.2.1) ∧
    (∀ (exec : ExecOracle) (changes : Int) (s : String) (rp : Bool) (e0 : ErrState),
       (exec s).1 = SQLITE_OK →
       e12_orm_get_last_error
         ((e12_db_execute exec changes (some ()) (some s) rp e0).2.2.1) = none ∧
       e12_orm_get_last_error_code
         ((e12_db_execute exec changes (some ()) (some s) rp e0).2.2.1) =
         E12ORMErrorCode.ok) := by
  refine ⟨?_, ?_, ?_, ?_, ?_, ?_, ?_⟩
  · intro exec changes db sql rp e0 e1
    simp only [e12_db_execute, clear_error]
  · intro openrc openmsg m p o e0 e1
    simp only [e12_db_open, clear_error]
  · intro prepare m db sql o e0 e1
    simp only [e12_db_query, clear_error]
  · intro exec m db o e0 e1
    simp only [e12_db_begin_transaction, clear_error]
  · intro exec t e0 e1
    simp only [e12_db_commit, clear_error]
  · intro exec t e0 e1
    simp only [e12_db_rollback, clear_error]
  · intro exec changes s rp e0 h
    cases rp <;>
      simp [e12_db_execute, clear_error, h, e12_orm_get_last_error,
            e12_orm_get_last_error_code]

/-- Witness for C7's amended theorem at a concrete input: a successful
execute erases a previously stored query-failure error. -/
theorem C7_amended_per_call_slot_reset_witness :
    e12_orm_get_last_error
      ((e12_db_execute execOkOracle 3 (some ()) (some "DELETE FROM t") true
        { code := .queryFailed, msg := "boom" }).2.2.1) = none ∧
    e12_orm_get_last_error_code
      ((e12_db_execute execOkOracle 3 (some ()) (some "DELETE FROM t") true
        { code := .queryFailed, msg := "boom" }).2.2.1) = E12ORMErrorCode.ok :=
  C7_amended_per_call_slot_reset.2.2.2.2.2.2 execOkOracle 3 "DELETE FROM t" true
    { code := .queryFailed, msg := "boom" } (by decide)

/-- C9: the row accessors are total at the public interface — a NULL row
handle, a NULL result pointer, a result without a current row, a negative
column index or one at or beyond the column count all yield the defaults:
NULL text, 0, 0.0, and is-null true. -/
theorem C9_row_accessors_total (row : Option E12RowImpl) (ci : Int)
    (h : row = none ∨ ∃ ri, row = some ri ∧
         (ri.result = none ∨ ∃ r, ri.result = some r ∧
           (r.has_row = false ∨ ci < 0 ∨ ci ≥ r.column_count))) :
    e12_row_get_text row ci = none ∧
    e12_row_get_int64 row ci = 0 ∧
    e12_row_get_double row ci = 0 ∧
    e12_row_is_null row ci = true := by
  rcases h with rfl | ⟨ri, rfl, h⟩
  · exact ⟨rfl, rfl, rfl, rfl⟩
  rcases h with hres | ⟨r, hres, h⟩
  · simp [e12_row_get_text, e12_row_get_int64, e12_row_get_double, e12_row_is_null, hres]
  rcases h with h | h | h <;>
    simp [e12_row_get_text, e12_row_get_int64, e12_row_get_double, e12_row_is_null,
          hres, h]

/-- Witness for C9 at a concrete input: a live one-column row queried at the
out-of-range column index 1. -/
theorem C9_row_accessors_total_witness :
    e12_row_get_text
      (some ⟨some ⟨⟨[], some [SqlValue.int 7], 1⟩, 1, true, true⟩⟩) 1 = none ∧
    e12_row_get_int64
      (some ⟨some ⟨⟨[], some [SqlValue.int 7], 1⟩, 1, true, true⟩⟩) 1 = 0 ∧
    e12_row_get_double
      (some ⟨some ⟨⟨[], some [SqlValue.int 7], 1⟩, 1, true, true⟩⟩) 1 = 0 ∧
    e12_row_is_null
      (some ⟨some ⟨⟨[], some [SqlValue.int 7], 1⟩, 1, true, true⟩⟩) 1 = true :=
  C9_row_accessors_total
    (some ⟨some ⟨⟨[], some [SqlValue.int 7], 1⟩, 1, true, true⟩⟩) 1
    (Or.inr ⟨⟨some ⟨⟨[], some [SqlValue.int 7], 1⟩, 1, true, true⟩⟩, rfl,
      Or.inr ⟨⟨⟨[], some [SqlValue.int 7], 1⟩, 1, true, true⟩, rfl,
        Or.inr (Or.inr (by decide))⟩⟩)

/-- C10: the connection-pool operations are unconditionally unavailable
through this interface — for every input, e12_pool_create and
e12_pool_acquire return E12_ORM_ERROR without writing their out-parameter,
and e12_pool_release and e12_pool_close leave the error slot untouched and
issue no statement. -/
theorem C10_pool_unavailable :
    (∀ (path : Option String) (config : Option E12ConnectionPoolConfig)
       (outv : Bool) (e0 : ErrState),
       (e12_pool_create path config outv e0).1 = E12ORMErrorCode.error ∧
       (e12_pool_create path config outv e0).2.1 = none) ∧
    (∀ (pool : Option Unit) (outv : Bool) (e0 : ErrState),
       (e12_pool_acquire pool outv e0).1 = E12ORMErrorCode.error ∧
       (e12_pool_acquire pool outv e0).2.1 = none) ∧
    (∀ (pool db : Option Unit) (e0 : ErrState), e12_pool_release pool db e0 = (e0, [])) ∧
    (∀ (pool : Option Unit) (e0 : ErrState), e12_pool_close pool e0 = (e0, [])) :=
  ⟨fun _ _ _ _ => ⟨rfl, rfl⟩, fun _ _ _ => ⟨rfl, rfl⟩,
   fun _ _ _ => rfl, fun _ _ => rfl⟩

end Engine12Spec







